import Mathlib

/-!
Shallow embedding of the authentication and permission core of the
`software_tester` repository:

* `src/api/models.py` — polymorphic user model, password handling,
  permission predicates, settings defaults, refresh-token records;
* `src/api/auth/auth_engines/abstract.py` — token-pair issuance;
* `src/api/auth/auth_engines/email.py` — email credential engine;
* `src/api/middleware.py` — token verification and the four-stage lazy
  per-request identity resolver.

Modelling conventions: UUIDs are `Nat`; wall-clock instants and timeouts
are `Int` minutes; a Django password hash is abstracted as the raw
password it encodes together with an `outdated` flag (Django's
`must_update` / changed-hasher condition), so hash verification is raw
equality and `make_password` produces a current-format hash; the external
password-strength validator (`django.contrib.auth.password_validation.validate_password`)
is an environment parameter `policy`; exceptions are values of an
`AppError` sum carried in `Except`.
-/

namespace SoftwareTester

/-- The `UserType` enum from `src/api/models.py`. -/
inductive UserType where
  | SUPER_ADMIN
  | OPERATOR
  | USER
deriving DecidableEq, Repr

/-- Abstraction of a Django password hash string: the raw password it was
derived from, and whether Django's hasher machinery considers the stored
format outdated (`must_update` or a changed hasher algorithm). -/
structure Hash where
  raw : String
  outdated : Bool
deriving DecidableEq, Repr

/-- Row of `AbstractUser` (`src/api/models.py`), restricted to the columns
the verified claims touch. -/
structure User where
  user_id : Nat
  user_type : UserType
  password_hash : Option Hash
  email : Option String
  is_email_confirmed : Bool
  is_confirmed : Bool
  is_blocked : Bool
deriving DecidableEq, Repr

/-- The exception kinds reachable from the embedded code: lamb framework
errors (`AuthCredentialsInvalid` carries its optional message,
`AuthCredentialsExpired`, `InvalidParamValueError`, `ServerError`) and the
project's own `UserIsNotConfirmedError` / `UserIsBlockedError` from
`src/api/exeptions.py`. -/
inductive AppError where
  | authCredentialsInvalid (msg : Option String)
  | authCredentialsExpired
  | userIsNotConfirmedError
  | userIsBlockedError
  | invalidParamValueError (msg : String)
  | serverError (msg : String)
deriving DecidableEq, Repr

/-- Equality of embedded call results (either an error value or a normal
return) is decidable, so concrete runs can be checked by evaluation. -/
instance {ε α : Type} [DecidableEq ε] [DecidableEq α] : DecidableEq (Except ε α) := fun a b =>
  match a, b with
  | .ok x, .ok y => decidable_of_iff (x = y) (by simp)
  | .error x, .error y => decidable_of_iff (x = y) (by simp)
  | .ok _, .error _ => .isFalse (by simp)
  | .error _, .ok _ => .isFalse (by simp)

/-- JWT claim set issued by `AbstractAuthEngine._create_token_pair`:
`{"user_id": str, "exp": absolute instant}`. -/
structure TokenPayload where
  user_id : String
  exp : Int
deriving DecidableEq, Repr

/-- A signed compact token: its claims plus the key and algorithm it was
signed with (`jwt.encode(payload, key, algorithm)`). -/
structure Jwt where
  payload : TokenPayload
  key : String
  alg : String
deriving DecidableEq, Repr

/-- Row of `RefreshToken` (`src/api/models.py`): token value (primary key)
and owning user. -/
structure RefreshTokenRec where
  value : Jwt
  user_id : Nat
deriving DecidableEq, Repr

/-- Credentials accepted by the email engine: `{email, password}`, both
required by `EmailAuthEngine._get_info` with `requires_password=True`. -/
structure Credentials where
  email : String
  password : String
deriving DecidableEq, Repr

/-- The database state visible to the embedded code: user rows and
refresh-token rows. -/
structure DB where
  users : List User
  refresh_tokens : List RefreshTokenRec
deriving DecidableEq, Repr

/-- External collaborators and configuration of one call:
`policy` is the password-strength validator, `rehashCommitFails` says
whether the `session.commit()` inside `check_password`'s rehash setter
raises, `now` is `datetime.utcnow()` in minutes, the rest are
`settings.APP_JWT_SECRET_KEY`, `settings.APP_JWT_ALGORITHM` and the two
`SettingsValue` timeout values (in minutes). -/
structure Env where
  policy : String → Bool
  rehashCommitFails : Bool
  now : Int
  secret_key : String
  algorithm : String
  access_token_timeout : Int
  refresh_token_timeout : Int

/-- Default of `SettingsValue.access_token_timeout` (`src/api/models.py`). -/
def access_token_timeout_default : Int := 60 * 24 * 3

/-- Default of `SettingsValue.refresh_token_timeout` (`src/api/models.py`). -/
def refresh_token_timeout_default : Int := 60 * 24 * 30

/-- Model of `django.contrib.auth.hashers.make_password`: a fresh hash in the
current format. -/
def make_password (raw : String) : Hash := { raw := raw, outdated := false }

/-- Model of `AbstractUser.set_password`: validates the raw password against the
external policy (raising `InvalidParamValueError` on rejection, as the
source wraps `ValidationError`), then stores a current-format hash. -/
def set_password (env : Env) (u : User) (raw : String) : Except AppError User :=
  if env.policy raw then
    .ok { u with password_hash := some (make_password raw) }
  else
    .error (.invalidParamValueError "Invalid password value")

/-- Replace the row of `u` (matched by primary key) in the user table. -/
def DB.update_user (db : DB) (u : User) : DB :=
  { db with users := db.users.map (fun x => if x.user_id = u.user_id then u else x) }

/-- Model of `AbstractUser.check_password` (`src/api/models.py`), including Django's
`check_password(raw, encoded, setter)` semantics: an unusable (absent)
hash verifies false; on a correct password against an outdated-format
hash the setter runs: `set_password` (whose failure propagates — it is
outside the `try`) followed by `session.commit()` wrapped in
`try/except Exception: pass` (its failure is swallowed, the in-memory
object keeps the new hash either way). -/
def check_password (env : Env) (db : DB) (u : User) (raw : String) :
    Except AppError (Bool × User × DB) :=
  match u.password_hash with
  | none => .ok (false, u, db)
  | some h =>
    if h.raw = raw then
      if h.outdated then
        match set_password env u raw with
        | .error e => .error e
        | .ok u' =>
          let db' := if env.rehashCommitFails then db else db.update_user u'
          .ok (true, u', db')
      else .ok (true, u, db)
    else .ok (false, u, db)

/-- Model of `AbstractAuthEngine._create_token_pair` (`abstract.py`): two tokens with
claims `{user_id: str(user_id), exp: now + timeout}`, signed with the
configured secret and algorithm; the timeouts come from the `Env`
(i.e. from `SettingsValue.*.val`), never from literals. -/
def create_token_pair (env : Env) (uid : Nat) : Jwt × Jwt :=
  let uid_str := toString uid
  ( { payload := { user_id := uid_str, exp := env.now + env.access_token_timeout },
      key := env.secret_key, alg := env.algorithm },
    { payload := { user_id := uid_str, exp := env.now + env.refresh_token_timeout },
      key := env.secret_key, alg := env.algorithm } )

/-- Python's `str.lower()` on an email string (character-wise ASCII
lowercasing), written structurally so that concrete instances evaluate. -/
def lower_string (s : String) : String := { data := s.data.map Char.toLower }

/-- The user lookup of `EmailAuthEngine._get_info`:
`query(AbstractUser).filter(AbstractUser.email == email).first()` after
lowercasing the supplied email. -/
def find_user_by_email (db : DB) (email : String) : Option User :=
  db.users.find? (fun u => decide (u.email = some email))

/-- Model of `EmailAuthEngine.authenticate` (`email.py`): look the user up by
lowercased email; raise `AuthCredentialsInvalid` with one fixed message
both when no user matches and when the password does not verify; on
success issue a token pair, persist one `RefreshToken` row and return
`(access_token, refresh_token, user)` together with the new database
state. -/
def authenticate (env : Env) (db : DB) (creds : Credentials) :
    Except AppError ((Jwt × Jwt × User) × DB) :=
  let email := lower_string creds.email
  match find_user_by_email db email with
  | none => .error (.authCredentialsInvalid (some "User password or email is not valid"))
  | some user =>
    match check_password env db user creds.password with
    | .error e => .error e
    | .ok (ok, user', db') =>
      if ok then
        let (access_token, refresh_token) := create_token_pair env user'.user_id
        let db'' := { db' with
          refresh_tokens := db'.refresh_tokens ++ [{ value := refresh_token, user_id := user'.user_id }] }
        .ok ((access_token, refresh_token, user'), db'')
      else
        .error (.authCredentialsInvalid (some "User password or email is not valid"))

/-- An inbound bearer token string as the middleware sees it: either not a
structurally valid compact JWT at all, or a well-formed token signed with
some key under some algorithm. -/
inductive InboundToken where
  | malformed (s : String)
  | signed (t : Jwt)
deriving DecidableEq, Repr

/-- Outcomes of `jwt.decode(token, key, algorithms=[alg])` on the tokens of
this system (claims `{user_id, exp}`): the pyjwt exceptions the middleware
handles, plus success. -/
inductive DecodeResult where
  | ok (p : TokenPayload)
  | expired
  | decodeError
  | invalidSignature
  | invalidAlgorithm
deriving DecidableEq, Repr

/-- The `jwt.decode` semantics for this system's tokens: a missing header value
(`None`) or malformed string raises `DecodeError`; a token whose algorithm
is not the allowed one raises `InvalidAlgorithmError`; a wrong signing key
raises `InvalidSignatureError`; a structurally and cryptographically valid
token whose `exp` has passed raises `ExpiredSignatureError`; otherwise the
payload is returned. -/
def jwt_decode (tok : Option InboundToken) (key alg : String) (now : Int) : DecodeResult :=
  match tok with
  | none => .decodeError
  | some (.malformed _) => .decodeError
  | some (.signed t) =>
    if t.alg ≠ alg then .invalidAlgorithm
    else if t.key ≠ key then .invalidSignature
    else if t.payload.exp ≤ now then .expired
    else .ok t.payload

/-- Model of `_get_user_token_payload` (`src/api/middleware.py`): maps
`ExpiredSignatureError` to `AuthCredentialsExpired` and
`DecodeError` / `InvalidSignatureError` / `InvalidAlgorithmError` to
`AuthCredentialsInvalid` (raised with its default, absent message). -/
def get_user_token_payload (tok : Option InboundToken) (key alg : String) (now : Int) :
    Except AppError TokenPayload :=
  match jwt_decode tok key alg now with
  | .ok p => .ok p
  | .expired => .error .authCredentialsExpired
  | .decodeError => .error (.authCredentialsInvalid none)
  | .invalidSignature => .error (.authCredentialsInvalid none)
  | .invalidAlgorithm => .error (.authCredentialsInvalid none)

/-- Run the checker list of the `user_check` decorator in order, stopping at
the first raised error. -/
def run_checkers : List (User → Except AppError Unit) → User → Except AppError Unit
  | [], _ => .ok ()
  | c :: cs, u =>
    match c u with
    | .error e => .error e
    | .ok _ => run_checkers cs u

/-- The `user_check` decorator (`src/api/models.py`): evaluate every checker
on the actor (first positional argument) before the wrapped predicate; the
wrapped predicates themselves are pure boolean functions. The decorator's
`params_checkers` argument is `None` at every permission call site and is
therefore omitted. -/
def user_check {α : Type} (checkers : List (User → Except AppError Unit))
    (func : User → α → Bool) (u : User) (a : α) : Except AppError Bool :=
  match run_checkers checkers u with
  | .error e => .error e
  | .ok _ => .ok (func u a)

/-- Model of `check_account_confirmed` (`src/api/models.py`): raise
`UserIsNotConfirmedError` when the actor is unconfirmed. -/
def check_account_confirmed (u : User) : Except AppError Unit :=
  if u.is_confirmed then .ok () else .error .userIsNotConfirmedError

/-- Model of `SuperAdmin.can_create_user`: allowed for every role except creating
another super admin. -/
def SuperAdmin.can_create_user (u : User) (t : UserType) : Except AppError Bool :=
  user_check [check_account_confirmed] (fun _ ut => decide (ut ≠ UserType.SUPER_ADMIN)) u t

/-- Model of `SuperAdmin.can_read_user`: always true for a confirmed super admin. -/
def SuperAdmin.can_read_user (u : User) (target : User) : Except AppError Bool :=
  user_check [check_account_confirmed] (fun _ _ => true) u target

/-- Model of `SuperAdmin.can_edit_user`: always true for a confirmed super admin. -/
def SuperAdmin.can_edit_user (u : User) (target : User) : Except AppError Bool :=
  user_check [check_account_confirmed] (fun _ _ => true) u target

/-- Model of `Operator.can_create_user`: always false. -/
def Operator.can_create_user (u : User) (t : UserType) : Except AppError Bool :=
  user_check [check_account_confirmed] (fun _ _ => false) u t

/-- Model of `Operator.can_read_user`: `user == self` — object identity in the ORM's
per-session identity map, i.e. the same user row. -/
def Operator.can_read_user (u : User) (target : User) : Except AppError Bool :=
  user_check [check_account_confirmed] (fun self tgt => decide (tgt = self)) u target

/-- Model of `Operator.can_edit_user`: `user == self`, as for reading. -/
def Operator.can_edit_user (u : User) (target : User) : Except AppError Bool :=
  user_check [check_account_confirmed] (fun self tgt => decide (tgt = self)) u target

/-- Per-request collaborators of the four resolver factories in
`src/api/middleware.py`: the inbound header value
(`_get_user_token_from_headers` returns `None` when absent, never raises),
the token verifier (`jwt.decode` wrapped by `_get_user_token_payload`),
the uuid transformer of `_get_user_id`, and the user-table lookup of
`_get_user`. -/
structure ReqEnv where
  header : Option String
  decode : Option String → Except AppError TokenPayload
  parse_uuid : TokenPayload → Except AppError Nat
  lookup : Nat → Option User

/-- The memoization state `_LazyHttpRequestDescriptor` keeps in the request
instance dictionary: one optional slot per stage (`none` = not yet
cached), plus instrumentation counters for the number of token decodes and
user-table lookups performed so far on this request. -/
structure ResolverState where
  token : Option (Option String)
  payload : Option TokenPayload
  user_id : Option Nat
  user : Option User
  decode_count : Nat
  lookup_count : Nat
deriving DecidableEq, Repr

/-- A fresh request: nothing cached, no decode or lookup done. -/
def ResolverState.init : ResolverState :=
  { token := none, payload := none, user_id := none, user := none,
    decode_count := 0, lookup_count := 0 }

/-- Reading `request.app_user_token`: return the cached slot if present,
else run `_get_user_token_from_headers` and cache its result (this factory
cannot raise — a missing header yields `none`). -/
def read_token (env : ReqEnv) (s : ResolverState) : Option String × ResolverState :=
  match s.token with
  | some v => (v, s)
  | none => (env.header, { s with token := some env.header })

/-- Reading `request.app_user_token_payload`: cache hit, or run
`_get_user_token_payload`, which itself reads `request.app_user_token`
through its descriptor and then decodes it. The descriptor caches only a
value the factory returned: when the factory raises, the assignment to the
instance dictionary never executes and nothing is cached. -/
def read_payload (env : ReqEnv) (s : ResolverState) :
    Except AppError TokenPayload × ResolverState :=
  match s.payload with
  | some p => (.ok p, s)
  | none =>
    let ts := read_token env s
    let s2 := { ts.2 with decode_count := ts.2.decode_count + 1 }
    match env.decode ts.1 with
    | .error e => (.error e, s2)
    | .ok p => (.ok p, { s2 with payload := some p })

/-- Reading `request.app_user_id`: cache hit, or run `_get_user_id`, which
reads the payload stage and applies `transform_uuid`; a raised error is
not cached. -/
def read_user_id (env : ReqEnv) (s : ResolverState) :
    Except AppError Nat × ResolverState :=
  match s.user_id with
  | some n => (.ok n, s)
  | none =>
    match read_payload env s with
    | (.error e, s1) => (.error e, s1)
    | (.ok p, s1) =>
      match env.parse_uuid p with
      | .error e => (.error e, s1)
      | .ok n => (.ok n, { s1 with user_id := some n })

/-- Reading `request.app_user`: cache hit, or run `_get_user`, which reads
the user-id stage, queries the user table, and raises
`AuthCredentialsInvalid` when no row matches; a raised error is not
cached. -/
def read_user (env : ReqEnv) (s : ResolverState) :
    Except AppError User × ResolverState :=
  match s.user with
  | some u => (.ok u, s)
  | none =>
    match read_user_id env s with
    | (.error e, s1) => (.error e, s1)
    | (.ok n, s1) =>
      let s2 := { s1 with lookup_count := s1.lookup_count + 1 }
      match env.lookup n with
      | none => (.error (.authCredentialsInvalid none), s2)
      | some u => (.ok u, { s2 with user := some u })

/-- Model of `_LazyHttpRequestDescriptor.__set__` on each stage: store the given
value in the cache slot; no factory runs. -/
def set_token (v : Option String) (s : ResolverState) : ResolverState :=
  { s with token := some v }

/-- Explicitly set the payload stage. -/
def set_payload (p : TokenPayload) (s : ResolverState) : ResolverState :=
  { s with payload := some p }

/-- Explicitly set the user-id stage. -/
def set_user_id (n : Nat) (s : ResolverState) : ResolverState :=
  { s with user_id := some n }

/-- Explicitly set the user stage. -/
def set_user (u : User) (s : ResolverState) : ResolverState :=
  { s with user := some u }

/-- One identity access a call site can make on a request: read or
explicitly set one of the four stages. -/
inductive ResolverOp where
  | read_tok
  | read_pl
  | read_uid
  | read_usr
  | set_tok (v : Option String)
  | set_pl (p : TokenPayload)
  | set_uid (n : Nat)
  | set_usr (u : User)

/-- Apply one access to the request state (read results are returned to the
call site and irrelevant to the stored state). -/
def run_op (env : ReqEnv) (s : ResolverState) : ResolverOp → ResolverState
  | .read_tok => (read_token env s).2
  | .read_pl => (read_payload env s).2
  | .read_uid => (read_user_id env s).2
  | .read_usr => (read_user env s).2
  | .set_tok v => set_token v s
  | .set_pl p => set_payload p s
  | .set_uid n => set_user_id n s
  | .set_usr u => set_user u s

/-- Run a whole sequence of accesses made during one request. -/
def run_ops (env : ReqEnv) : List ResolverOp → ResolverState → ResolverState
  | [], s => s
  | op :: ops, s => run_ops env ops (run_op env s op)

/-- An access that only reads (models an arbitrary call site consulting
identity). -/
def ResolverOp.is_read : ResolverOp → Bool
  | .read_tok | .read_pl | .read_uid | .read_usr => true
  | _ => false

/-- An access that can trigger token verification or a storage lookup:
reading stage 2 or later. -/
def ResolverOp.touches_verification : ResolverOp → Bool
  | .read_pl | .read_uid | .read_usr => true
  | _ => false

/-- A request environment on which every stage computation succeeds: the
header token decodes, its payload parses to a user id, and that id is in
the user table. -/
def GoodEnv (env : ReqEnv) : Prop :=
  ∃ p n u, env.decode env.header = .ok p ∧ env.parse_uuid p = .ok n ∧ env.lookup n = some u

/-! Concrete fixtures used to instantiate the theorems below. -/

/-- A well-behaved environment: permissive password policy, working rehash
commit, default timeouts. -/
def envW : Env :=
  { policy := fun _ => true, rehashCommitFails := false, now := 0,
    secret_key := "k", algorithm := "HS256",
    access_token_timeout := 4320, refresh_token_timeout := 43200 }

/-- An environment whose password-strength validator rejects every
password (e.g. every stored password became shorter than a raised
minimum-length setting, or similar to a later-added user attribute). -/
def envRejectPolicy : Env :=
  { policy := fun _ => false, rehashCommitFails := false, now := 0,
    secret_key := "k", algorithm := "HS256",
    access_token_timeout := 4320, refresh_token_timeout := 43200 }

/-- An environment where the rehash `session.commit()` raises. -/
def envCommitFails : Env :=
  { policy := fun _ => true, rehashCommitFails := true, now := 100,
    secret_key := "k", algorithm := "HS256",
    access_token_timeout := 4320, refresh_token_timeout := 43200 }

/-- A confirmed super admin with a current-format hash. -/
def admin_user : User :=
  { user_id := 1, user_type := .SUPER_ADMIN,
    password_hash := some { raw := "s3cure pass", outdated := false },
    email := some "admin@example.com", is_email_confirmed := true,
    is_confirmed := true, is_blocked := false }

/-- A confirmed user whose stored hash is in an outdated hasher format. -/
def legacy_user : User :=
  { user_id := 2, user_type := .OPERATOR,
    password_hash := some { raw := "legacy pw", outdated := true },
    email := some "old@example.com", is_email_confirmed := true,
    is_confirmed := true, is_blocked := false }

/-- A confirmed but blocked operator. -/
def blocked_operator : User :=
  { user_id := 3, user_type := .OPERATOR, password_hash := none,
    email := some "op@example.com", is_email_confirmed := true,
    is_confirmed := true, is_blocked := true }

/-- A blocked and unconfirmed user with an outdated-format hash. -/
def blocked_legacy_user : User :=
  { user_id := 4, user_type := .OPERATOR,
    password_hash := some { raw := "legacy2 pw", outdated := true },
    email := some "blocked@example.com", is_email_confirmed := false,
    is_confirmed := false, is_blocked := true }

/-- An unconfirmed operator. -/
def unconfirmed_user : User :=
  { user_id := 5, user_type := .OPERATOR, password_hash := none,
    email := some "new@example.com", is_email_confirmed := false,
    is_confirmed := false, is_blocked := false }

/-- A blocked, unconfirmed user with a current-format hash. -/
def blocked_fresh_user : User :=
  { user_id := 6, user_type := .OPERATOR,
    password_hash := some { raw := "fresh pw", outdated := false },
    email := some "fresh@example.com", is_email_confirmed := false,
    is_confirmed := false, is_blocked := true }

/-- A user with an outdated hash, for the `check_password` rehash cases. -/
def rehash_user : User :=
  { user_id := 7, user_type := .USER,
    password_hash := some { raw := "secret99", outdated := true },
    email := some "rehash@example.com", is_email_confirmed := true,
    is_confirmed := true, is_blocked := false }

/-- Empty database. -/
def empty_db : DB := { users := [], refresh_tokens := [] }

/-- Database holding only the confirmed admin. -/
def admin_db : DB := { users := [admin_user], refresh_tokens := [] }

/-- Database holding only the legacy-hash user. -/
def legacy_db : DB := { users := [legacy_user], refresh_tokens := [] }

/-- Database holding only the blocked legacy-hash user. -/
def blocked_legacy_db : DB := { users := [blocked_legacy_user], refresh_tokens := [] }

/-- Database holding only the blocked current-hash user. -/
def blocked_fresh_db : DB := { users := [blocked_fresh_user], refresh_tokens := [] }

/-- Database holding only the rehash-case user. -/
def rehash_db : DB := { users := [rehash_user], refresh_tokens := [] }

/-- Credentials with a mixed-case email for the admin. -/
def admin_creds : Credentials := { email := "Admin@Example.com", password := "s3cure pass" }

/-- Credentials for an email no user has. -/
def unknown_creds : Credentials := { email := "nobody@example.com", password := "whatever" }

/-- Correct credentials of the legacy-hash user. -/
def legacy_creds : Credentials := { email := "old@example.com", password := "legacy pw" }

/-- Correct credentials of the blocked legacy-hash user. -/
def blocked_creds : Credentials := { email := "blocked@example.com", password := "legacy2 pw" }

/-- Correct credentials of the blocked current-hash user. -/
def blocked_fresh_creds : Credentials := { email := "Fresh@example.com", password := "fresh pw" }

/-- The payload the good resolver environment decodes to. -/
def payloadW : TokenPayload := { user_id := "7", exp := 1000 }

/-- A resolver environment on which all four stages succeed. -/
def envGood : ReqEnv :=
  { header := some "tok", decode := fun _ => .ok payloadW,
    parse_uuid := fun _ => .ok 7, lookup := fun _ => some rehash_user }

/-- A resolver environment whose token never decodes (invalid inbound
token). -/
def envBad : ReqEnv :=
  { header := some "garbage",
    decode := fun _ => .error (.authCredentialsInvalid none),
    parse_uuid := fun _ => .error (.authCredentialsInvalid none),
    lookup := fun _ => none }

/-- Three call sites reading identity on one request. -/
def opsW : List ResolverOp := [ResolverOp.read_usr, ResolverOp.read_pl, ResolverOp.read_usr]

/-- The token value a payload-stage computation will decode: the cached
stage-1 slot if present, else the header (which reading stage 1 would
cache). -/
def token_value (env : ReqEnv) (s : ResolverState) : Option String :=
  match s.token with
  | some v => v
  | none => env.header

/-- The state after one decode attempt on a payload-stage miss: the token
slot is (now) filled and the decode counter advanced; nothing else moves. -/
def mark_decode (env : ReqEnv) (s : ResolverState) : ResolverState :=
  { s with token := some (token_value env s), decode_count := s.decode_count + 1 }

/-- Invariant of a request state on a well-behaved environment: every
cache slot is either empty or holds the canonical stage value, and each
counter is exactly the number of cached results that required it — so both
counters never exceed one. -/
def ResolverInv (env : ReqEnv) (p : TokenPayload) (n : Nat) (u : User)
    (s : ResolverState) : Prop :=
  (s.token = none ∨ s.token = some env.header)
  ∧ (s.payload = none ∨ s.payload = some p)
  ∧ (s.user_id = none ∨ s.user_id = some n)
  ∧ (s.user = none ∨ s.user = some u)
  ∧ s.decode_count = (if s.payload = none then 0 else 1)
  ∧ s.lookup_count = (if s.user = none then 0 else 1)

/-! Theorems. -/

/-- With a confirmed actor, the confirmation-guarded combinator returns the
wrapped pure predicate's boolean. -/
theorem user_check_confirmed {α : Type} (f : User → α → Bool) (u : User) (a : α)
    (h : u.is_confirmed = true) :
    user_check [check_account_confirmed] f u a = .ok (f u a) := by
  simp [user_check, run_checkers, check_account_confirmed, h]

/-- With an unconfirmed actor, the confirmation-guarded combinator raises
the not-confirmed error. -/
theorem user_check_unconfirmed {α : Type} (f : User → α → Bool) (u : User) (a : α)
    (h : u.is_confirmed = false) :
    user_check [check_account_confirmed] f u a = .error .userIsNotConfirmedError := by
  simp [user_check, run_checkers, check_account_confirmed, h]

/-- Claim C1: for every credentials mapping given to the email engine's
`authenticate`, if the lowercased email matches no stored user, or matches
a user whose stored hash does not verify the supplied password (including
an absent hash), the call fails with the identical `AuthCredentialsInvalid`
error — same kind and same message — in both cases, so a caller cannot
distinguish unknown user from wrong password. -/
theorem C1_invalid_credentials_indistinguishable
    (env : Env) (db : DB) (creds : Credentials)
    (h : find_user_by_email db (lower_string creds.email) = none
      ∨ ∃ u, find_user_by_email db (lower_string creds.email) = some u
          ∧ (u.password_hash = none
            ∨ ∃ hh, u.password_hash = some hh ∧ hh.raw ≠ creds.password)) :
    authenticate env db creds
      = .error (.authCredentialsInvalid (some "User password or email is not valid")) := by
  rcases h with h | ⟨u, hu, hbad⟩
  · simp [authenticate, h]
  · rcases hbad with hnone | ⟨hh, hph, hne⟩
    · simp [authenticate, hu, check_password, hnone]
    · simp [authenticate, hu, check_password, hph, hne]

/-- Witness for C1: on the empty database every login attempt fails with
the one fixed invalid-credentials error. -/
theorem C1_invalid_credentials_indistinguishable_witness :
    find_user_by_email empty_db (lower_string unknown_creds.email) = none
    ∧ authenticate envW empty_db unknown_creds
      = .error (.authCredentialsInvalid (some "User password or email is not valid")) :=
  ⟨rfl, C1_invalid_credentials_indistinguishable envW empty_db unknown_creds (Or.inl rfl)⟩

/-- Claim C7: both issued tokens carry `{user_id, exp}` claims with the
`user_id` claim equal to the stringified user id; the access expiry is
issuance time plus the configured access timeout and the refresh expiry is
issuance time plus the configured refresh timeout — for every
configuration, so neither timeout is a hardcoded constant — and the
configuration defaults are 4320 and 43200 minutes. -/
theorem C7_token_pair_claims_and_timeouts (env : Env) (uid : Nat) :
    (create_token_pair env uid).1.payload.user_id = toString uid
    ∧ (create_token_pair env uid).2.payload.user_id = toString uid
    ∧ (create_token_pair env uid).1.payload.exp = env.now + env.access_token_timeout
    ∧ (create_token_pair env uid).2.payload.exp = env.now + env.refresh_token_timeout
    ∧ access_token_timeout_default = 4320
    ∧ refresh_token_timeout_default = 43200 :=
  ⟨rfl, rfl, rfl, rfl, by norm_num [access_token_timeout_default],
    by norm_num [refresh_token_timeout_default]⟩

/-- Claim C5: token verification fails as credentials-expired exactly when
the token is well formed, carries the allowed algorithm and the right key
(valid signature) but its `exp` claim has passed; any error it produces is
either credentials-expired or credentials-invalid; and every structural or
signature failure yields credentials-invalid. -/
theorem C5_verify_failure_kinds (tok : Option InboundToken) (key alg : String) (now : Int) :
    (get_user_token_payload tok key alg now = .error .authCredentialsExpired
      ↔ ∃ t, tok = some (.signed t) ∧ t.alg = alg ∧ t.key = key ∧ t.payload.exp ≤ now)
    ∧ (∀ e, get_user_token_payload tok key alg now = .error e →
        e = .authCredentialsExpired ∨ e = .authCredentialsInvalid none)
    ∧ ((jwt_decode tok key alg now = .decodeError
        ∨ jwt_decode tok key alg now = .invalidSignature
        ∨ jwt_decode tok key alg now = .invalidAlgorithm) →
      get_user_token_payload tok key alg now = .error (.authCredentialsInvalid none)) := by
  rcases tok with _ | tk
  · refine ⟨by simp [get_user_token_payload, jwt_decode], ?_, ?_⟩
    · intro e he
      simp [get_user_token_payload, jwt_decode] at he
      exact Or.inr he.symm
    · intro _; simp [get_user_token_payload, jwt_decode]
  · rcases tk with s | t
    · refine ⟨by simp [get_user_token_payload, jwt_decode], ?_, ?_⟩
      · intro e he
        simp [get_user_token_payload, jwt_decode] at he
        exact Or.inr he.symm
      · intro _; simp [get_user_token_payload, jwt_decode]
    · by_cases halg : t.alg = alg
      · by_cases hkey : t.key = key
        · by_cases hexp : t.payload.exp ≤ now
          · refine ⟨by simp [get_user_token_payload, jwt_decode, halg, hkey, hexp], ?_, ?_⟩
            · intro e he
              simp [get_user_token_payload, jwt_decode, halg, hkey, hexp] at he
              exact Or.inl he.symm
            · intro hcontra
              simp [jwt_decode, halg, hkey, hexp] at hcontra
          · refine ⟨by simp [get_user_token_payload, jwt_decode, halg, hkey, hexp], ?_, ?_⟩
            · intro e he
              simp [get_user_token_payload, jwt_decode, halg, hkey, hexp] at he
            · intro hcontra
              simp [jwt_decode, halg, hkey, hexp] at hcontra
        · refine ⟨by simp [get_user_token_payload, jwt_decode, halg, hkey], ?_, ?_⟩
          · intro e he
            simp [get_user_token_payload, jwt_decode, halg, hkey] at he
            exact Or.inr he.symm
          · intro _; simp [get_user_token_payload, jwt_decode, halg, hkey]
      · refine ⟨by simp [get_user_token_payload, jwt_decode, halg], ?_, ?_⟩
        · intro e he
          simp [get_user_token_payload, jwt_decode, halg] at he
          exact Or.inr he.symm
        · intro _; simp [get_user_token_payload, jwt_decode, halg]

/-- Witness for C5: a missing token (absent header) is a structural
failure and yields the credentials-invalid error. -/
theorem C5_verify_failure_kinds_witness :
    jwt_decode none "k" "HS256" 0 = .decodeError
    ∧ get_user_token_payload none "k" "HS256" 0 = .error (.authCredentialsInvalid none) :=
  ⟨rfl, (C5_verify_failure_kinds none "k" "HS256" 0).2.2 (Or.inl rfl)⟩

/-- Claim C3: every permission predicate, on both role variants and any
arguments, raises `UserIsNotConfirmedError` instead of returning a
boolean whenever the actor is unconfirmed; when the actor is confirmed,
every predicate returns a plain boolean (predicates are pure functions of
their arguments — they touch no state by construction). -/
theorem C3_unconfirmed_guard (u : User) :
    (u.is_confirmed = false →
      (∀ t, SuperAdmin.can_create_user u t = .error .userIsNotConfirmedError)
      ∧ (∀ target, SuperAdmin.can_read_user u target = .error .userIsNotConfirmedError)
      ∧ (∀ target, SuperAdmin.can_edit_user u target = .error .userIsNotConfirmedError)
      ∧ (∀ t, Operator.can_create_user u t = .error .userIsNotConfirmedError)
      ∧ (∀ target, Operator.can_read_user u target = .error .userIsNotConfirmedError)
      ∧ (∀ target, Operator.can_edit_user u target = .error .userIsNotConfirmedError))
    ∧ (u.is_confirmed = true →
      (∀ t, ∃ b, SuperAdmin.can_create_user u t = .ok b)
      ∧ (∀ target, ∃ b, SuperAdmin.can_read_user u target = .ok b)
      ∧ (∀ target, ∃ b, SuperAdmin.can_edit_user u target = .ok b)
      ∧ (∀ t, ∃ b, Operator.can_create_user u t = .ok b)
      ∧ (∀ target, ∃ b, Operator.can_read_user u target = .ok b)
      ∧ (∀ target, ∃ b, Operator.can_edit_user u target = .ok b)) := by
  constructor
  · intro h
    exact ⟨fun t => user_check_unconfirmed _ u t h, fun target => user_check_unconfirmed _ u target h,
      fun target => user_check_unconfirmed _ u target h, fun t => user_check_unconfirmed _ u t h,
      fun target => user_check_unconfirmed _ u target h, fun target => user_check_unconfirmed _ u target h⟩
  · intro h
    exact ⟨fun t => ⟨_, user_check_confirmed _ u t h⟩, fun target => ⟨_, user_check_confirmed _ u target h⟩,
      fun target => ⟨_, user_check_confirmed _ u target h⟩, fun t => ⟨_, user_check_confirmed _ u t h⟩,
      fun target => ⟨_, user_check_confirmed _ u target h⟩, fun target => ⟨_, user_check_confirmed _ u target h⟩⟩

/-- Witness for C3: the unconfirmed operator's read predicate raises the
not-confirmed error, and once confirmed the admin's create predicate
returns a boolean. -/
theorem C3_unconfirmed_guard_witness :
    unconfirmed_user.is_confirmed = false
    ∧ Operator.can_read_user unconfirmed_user unconfirmed_user
        = .error .userIsNotConfirmedError
    ∧ admin_user.is_confirmed = true
    ∧ ∃ b, SuperAdmin.can_create_user admin_user UserType.OPERATOR = .ok b :=
  ⟨rfl, ((C3_unconfirmed_guard unconfirmed_user).1 rfl).2.2.2.2.1 unconfirmed_user,
    rfl, ((C3_unconfirmed_guard admin_user).2 rfl).1 UserType.OPERATOR⟩

/-- Claim C4: for every confirmed actor, `SuperAdmin.can_create_user t` is
true exactly when `t` is not `SUPER_ADMIN`, `SuperAdmin.can_read_user` and
`can_edit_user` are true for every target; `Operator.can_create_user` is
false for every role, and `Operator.can_read_user` / `can_edit_user` are
true exactly when the target is the actor itself. -/
theorem C4_role_permission_table (u : User) (h : u.is_confirmed = true) :
    (∀ t, SuperAdmin.can_create_user u t = .ok (decide (t ≠ UserType.SUPER_ADMIN)))
    ∧ (∀ target, SuperAdmin.can_read_user u target = .ok true)
    ∧ (∀ target, SuperAdmin.can_edit_user u target = .ok true)
    ∧ (∀ t, Operator.can_create_user u t = .ok false)
    ∧ (∀ target, Operator.can_read_user u target = .ok (decide (target = u)))
    ∧ (∀ target, Operator.can_edit_user u target = .ok (decide (target = u))) :=
  ⟨fun t => user_check_confirmed _ u t h, fun target => user_check_confirmed _ u target h,
    fun target => user_check_confirmed _ u target h, fun t => user_check_confirmed _ u t h,
    fun target => user_check_confirmed _ u target h, fun target => user_check_confirmed _ u target h⟩

/-- Witness for C4: a confirmed admin may create an operator but not a
super admin, and the confirmed blocked operator may read itself. -/
theorem C4_role_permission_table_witness :
    admin_user.is_confirmed = true
    ∧ SuperAdmin.can_create_user admin_user UserType.OPERATOR
        = .ok (decide (UserType.OPERATOR ≠ UserType.SUPER_ADMIN))
    ∧ SuperAdmin.can_create_user admin_user UserType.SUPER_ADMIN
        = .ok (decide (UserType.SUPER_ADMIN ≠ UserType.SUPER_ADMIN))
    ∧ Operator.can_read_user blocked_operator blocked_operator
        = .ok (decide (blocked_operator = blocked_operator)) :=
  ⟨rfl, (C4_role_permission_table admin_user rfl).1 UserType.OPERATOR,
    (C4_role_permission_table admin_user rfl).1 UserType.SUPER_ADMIN,
    (C4_role_permission_table blocked_operator rfl).2.2.2.2.1 blocked_operator⟩

/-- Counterexample to claim C8: a blocked (and confirmed) operator invokes
a permission predicate and the call returns the boolean `true` instead of
raising the `UserIsBlockedError` (AccountBlocked) domain error — the
predicates never consult `is_blocked`. -/
theorem C8_counterexample_blocked_actor_not_rejected :
    blocked_operator.is_blocked = true
    ∧ Operator.can_read_user blocked_operator blocked_operator = .ok true := by
  refine ⟨rfl, ?_⟩
  simp [Operator.can_read_user, user_check, run_checkers, check_account_confirmed,
    blocked_operator]

/-- Claim C8 as amended: no permission predicate ever raises the
AccountBlocked error for any actor or arguments — every call either raises
the not-confirmed error (unconfirmed actor) or returns a boolean;
`is_blocked` is never consulted and `UserIsBlockedError`, though defined
in `src/api/exeptions.py`, is never raised by the permission layer. -/
theorem C8_amended_no_blocked_guard (u : User) :
    (∀ t, SuperAdmin.can_create_user u t = .error .userIsNotConfirmedError
      ∨ ∃ b, SuperAdmin.can_create_user u t = .ok b)
    ∧ (∀ target, SuperAdmin.can_read_user u target = .error .userIsNotConfirmedError
      ∨ ∃ b, SuperAdmin.can_read_user u target = .ok b)
    ∧ (∀ target, SuperAdmin.can_edit_user u target = .error .userIsNotConfirmedError
      ∨ ∃ b, SuperAdmin.can_edit_user u target = .ok b)
    ∧ (∀ t, Operator.can_create_user u t = .error .userIsNotConfirmedError
      ∨ ∃ b, Operator.can_create_user u t = .ok b)
    ∧ (∀ target, Operator.can_read_user u target = .error .userIsNotConfirmedError
      ∨ ∃ b, Operator.can_read_user u target = .ok b)
    ∧ (∀ target, Operator.can_edit_user u target = .error .userIsNotConfirmedError
      ∨ ∃ b, Operator.can_edit_user u target = .ok b) := by
  by_cases h : u.is_confirmed = true
  · exact ⟨fun t => Or.inr ⟨_, user_check_confirmed _ u t h⟩,
      fun target => Or.inr ⟨_, user_check_confirmed _ u target h⟩,
      fun target => Or.inr ⟨_, user_check_confirmed _ u target h⟩,
      fun t => Or.inr ⟨_, user_check_confirmed _ u t h⟩,
      fun target => Or.inr ⟨_, user_check_confirmed _ u target h⟩,
      fun target => Or.inr ⟨_, user_check_confirmed _ u target h⟩⟩
  · rw [Bool.not_eq_true] at h
    exact ⟨fun t => Or.inl (user_check_unconfirmed _ u t h),
      fun target => Or.inl (user_check_unconfirmed _ u target h),
      fun target => Or.inl (user_check_unconfirmed _ u target h),
      fun t => Or.inl (user_check_unconfirmed _ u t h),
      fun target => Or.inl (user_check_unconfirmed _ u target h),
      fun target => Or.inl (user_check_unconfirmed _ u target h)⟩

/-- Rehashing a user's password never touches the refresh-token table. -/
theorem update_user_refresh_tokens (db : DB) (u : User) :
    (DB.update_user db u).refresh_tokens = db.refresh_tokens := rfl

/-- Successful verification of `check_password`: with a matching raw
password, the check returns `true` — immediately for a current-format
hash, and through the rehash setter for an outdated one provided the
re-validation policy accepts the password (the rehash commit's outcome is
irrelevant to the result and to the refresh-token table). -/
theorem check_password_verified (env : Env) (db : DB) (u : User) (hsh : Hash) (raw : String)
    (hph : u.password_hash = some hsh)
    (hraw : hsh.raw = raw)
    (hrehash : hsh.outdated = false ∨ env.policy raw = true) :
    ∃ u' db', check_password env db u raw = .ok (true, u', db')
      ∧ u'.user_id = u.user_id
      ∧ db'.refresh_tokens = db.refresh_tokens := by
  rcases hout : hsh.outdated with _ | _
  · exact ⟨u, db, by simp [check_password, hph, hraw, hout], rfl, rfl⟩
  · have hpol : env.policy raw = true := by
      rcases hrehash with h | h
      · rw [hout] at h; cases h
      · exact h
    refine ⟨{ u with password_hash := some (make_password raw) },
      if env.rehashCommitFails then db
        else db.update_user { u with password_hash := some (make_password raw) },
      ?_, rfl, ?_⟩
    · simp [check_password, hph, hraw, hout, set_password, hpol]
    · rcases env.rehashCommitFails with _ | _ <;> simp [update_user_refresh_tokens]

/-- Success path of `EmailAuthEngine.authenticate`, shared shape: when the
email lookup hits a user whose hash verifies the supplied password and the
rehash step (if any) does not fail re-validation, the engine returns the
token pair from `_create_token_pair` together with the authenticated user
and appends exactly one refresh-token row. -/
theorem authenticate_success (env : Env) (db : DB) (creds : Credentials) (user : User) (hsh : Hash)
    (hfind : find_user_by_email db (lower_string creds.email) = some user)
    (hph : user.password_hash = some hsh)
    (hraw : hsh.raw = creds.password)
    (hrehash : hsh.outdated = false ∨ env.policy creds.password = true) :
    ∃ user' db',
      authenticate env db creds
        = .ok (((create_token_pair env user.user_id).1,
                (create_token_pair env user.user_id).2, user'), db')
      ∧ user'.user_id = user.user_id
      ∧ db'.refresh_tokens = db.refresh_tokens
          ++ [{ value := (create_token_pair env user.user_id).2, user_id := user.user_id }] := by
  obtain ⟨u', db', hchk, hid, hrt⟩ := check_password_verified env db user hsh creds.password hph hraw hrehash
  refine ⟨u', { db' with refresh_tokens := db'.refresh_tokens
    ++ [{ value := (create_token_pair env user.user_id).2, user_id := user.user_id }] }, ?_, hid, ?_⟩
  · simp only [authenticate, hfind, hchk, hid]
    simp [create_token_pair, hid]
  · simp [hrt]

/-- Counterexample to claim C2: `legacy_user` is stored and confirmed, the
credentials carry its email and correct password, yet `authenticate` does
not return a token pair: the stored hash is in an outdated format and the
transparent rehash re-validates the password, whose rejection by the
current policy propagates as `InvalidParamValueError` out of
`check_password` and `authenticate`. -/
theorem C2_counterexample_rehash_validation_aborts_login :
    legacy_user.is_confirmed = true
    ∧ find_user_by_email legacy_db (lower_string legacy_creds.email) = some legacy_user
    ∧ legacy_user.password_hash = some { raw := legacy_creds.password, outdated := true }
    ∧ authenticate envRejectPolicy legacy_db legacy_creds
        = .error (.invalidParamValueError "Invalid password value") :=
  ⟨rfl, by decide, rfl, by decide⟩

/-- Claim C2 as amended: for every stored confirmed user and credentials
carrying that user's email with the correct password, provided the rehash
step cannot fail (the stored hash is in the current format, or the current
validation policy accepts the password), `authenticate` returns
`(access_token, refresh_token, user)` where the access token's `user_id`
claim is the user's id, and exactly one `RefreshToken` row is appended
whose value is the returned refresh token and whose `user_id` is the
user's id. -/
theorem C2_confirmed_login_issues_tokens
    (env : Env) (db : DB) (creds : Credentials) (user : User) (hsh : Hash)
    (hfind : find_user_by_email db (lower_string creds.email) = some user)
    (_hconf : user.is_confirmed = true)
    (hph : user.password_hash = some hsh)
    (hraw : hsh.raw = creds.password)
    (hrehash : hsh.outdated = false ∨ env.policy creds.password = true) :
    ∃ access_token refresh_token user' db',
      authenticate env db creds = .ok ((access_token, refresh_token, user'), db')
      ∧ access_token.payload.user_id = toString user.user_id
      ∧ user'.user_id = user.user_id
      ∧ db'.refresh_tokens = db.refresh_tokens
          ++ [{ value := refresh_token, user_id := user.user_id }] := by
  obtain ⟨user', db', hok, hid, hrt⟩ :=
    authenticate_success env db creds user hsh hfind hph hraw hrehash
  exact ⟨(create_token_pair env user.user_id).1, (create_token_pair env user.user_id).2,
    user', db', hok, rfl, hid, hrt⟩

/-- Witness for amended C2: the confirmed admin logs in with a mixed-case
email and correct password; tokens are issued and one refresh row is
appended. -/
theorem C2_confirmed_login_issues_tokens_witness :
    find_user_by_email admin_db (lower_string admin_creds.email) = some admin_user
    ∧ admin_user.is_confirmed = true
    ∧ ∃ access_token refresh_token user' db',
        authenticate envW admin_db admin_creds = .ok ((access_token, refresh_token, user'), db')
        ∧ access_token.payload.user_id = toString admin_user.user_id
        ∧ user'.user_id = admin_user.user_id
        ∧ db'.refresh_tokens = admin_db.refresh_tokens
            ++ [{ value := refresh_token, user_id := admin_user.user_id }] :=
  ⟨by decide, rfl, C2_confirmed_login_issues_tokens envW admin_db admin_creds admin_user
    { raw := "s3cure pass", outdated := false } (by decide) rfl rfl rfl (Or.inl rfl)⟩

/-- Counterexample to claim C9: `rehash_user`'s stored hash is outdated and
the supplied password verifies, yet `check_password` does not return the
verification outcome: the rehash step's re-validation (inside
`set_password`, which the setter calls outside its `try` block) rejects
the password and the resulting `InvalidParamValueError` propagates to the
caller instead of being swallowed. -/
theorem C9_counterexample_rehash_failure_propagates :
    rehash_user.password_hash = some { raw := "secret99", outdated := true }
    ∧ check_password envRejectPolicy rehash_db rehash_user "secret99"
        = .error (.invalidParamValueError "Invalid password value") :=
  ⟨rfl, rfl⟩

/-- Claim C9 as amended: when `check_password` succeeds against an
outdated hasher format, only the database-commit half of the
recompute-and-persist rehash step is best-effort: a commit failure is
silently swallowed (without logging — the source's handler is
`except Exception: pass`) and `check_password` still returns the
verification outcome `true` with the in-memory hash recomputed; a failure
of the recompute half (password re-validation inside `set_password`)
is not swallowed and propagates as `InvalidParamValueError`. -/
theorem C9_rehash_swallow_and_propagation :
    (∀ (env : Env) (db : DB) (u : User) (hsh : Hash) (raw : String),
      u.password_hash = some hsh → hsh.raw = raw → hsh.outdated = true →
      env.policy raw = true →
      check_password env db u raw
        = .ok (true, { u with password_hash := some (make_password raw) },
            if env.rehashCommitFails then db
            else db.update_user { u with password_hash := some (make_password raw) }))
    ∧ (∀ (env : Env) (db : DB) (u : User) (hsh : Hash) (raw : String),
      u.password_hash = some hsh → hsh.raw = raw → hsh.outdated = true →
      env.policy raw = false →
      check_password env db u raw
        = .error (.invalidParamValueError "Invalid password value")) := by
  constructor
  · intro env db u hsh raw hph hraw hout hpol
    simp [check_password, hph, hraw, hout, set_password, hpol]
  · intro env db u hsh raw hph hraw hout hpol
    simp [check_password, hph, hraw, hout, set_password, hpol]

/-- Witness for amended C9: with a raising rehash commit
(`envCommitFails`), the check still returns `true` and the updated
in-memory user. -/
theorem C9_rehash_swallow_and_propagation_witness :
    rehash_user.password_hash = some { raw := "secret99", outdated := true }
    ∧ check_password envCommitFails rehash_db rehash_user "secret99"
        = .ok (true, { rehash_user with password_hash := some (make_password "secret99") },
            if envCommitFails.rehashCommitFails then rehash_db
            else rehash_db.update_user
              { rehash_user with password_hash := some (make_password "secret99") }) :=
  ⟨rfl, C9_rehash_swallow_and_propagation.1 envCommitFails rehash_db rehash_user
    { raw := "secret99", outdated := true } "secret99" rfl rfl rfl rfl⟩

/-- Counterexample to claim C10: `blocked_legacy_user` is stored with
email and password matching the supplied credentials, yet `authenticate`
does not succeed: its outdated-format hash triggers the rehash whose
re-validation failure propagates. (The failure is unrelated to the
account flags: the claim's universal success statement is what fails.) -/
theorem C10_counterexample_rehash_blocks_matching_login :
    blocked_legacy_user.is_blocked = true
    ∧ blocked_legacy_user.is_confirmed = false
    ∧ find_user_by_email blocked_legacy_db (lower_string blocked_creds.email)
        = some blocked_legacy_user
    ∧ blocked_legacy_user.password_hash = some { raw := blocked_creds.password, outdated := true }
    ∧ authenticate envRejectPolicy blocked_legacy_db blocked_creds
        = .error (.invalidParamValueError "Invalid password value") :=
  ⟨rfl, rfl, by decide, rfl, by decide⟩

/-- Claim C10 as amended: `authenticate` never consults `is_blocked` or
`is_confirmed` — for every stored user (any combination of those flags,
with no hypothesis on either) whose email and password match the supplied
credentials and whose rehash re-validation cannot fail, `authenticate`
succeeds and issues a token pair for that user. -/
theorem C10_authenticate_ignores_account_flags
    (env : Env) (db : DB) (creds : Credentials) (user : User) (hsh : Hash)
    (hfind : find_user_by_email db (lower_string creds.email) = some user)
    (hph : user.password_hash = some hsh)
    (hraw : hsh.raw = creds.password)
    (hrehash : hsh.outdated = false ∨ env.policy creds.password = true) :
    ∃ access_token refresh_token user' db',
      authenticate env db creds = .ok ((access_token, refresh_token, user'), db')
      ∧ user'.user_id = user.user_id := by
  obtain ⟨user', db', hok, hid, _⟩ :=
    authenticate_success env db creds user hsh hfind hph hraw hrehash
  exact ⟨(create_token_pair env user.user_id).1, (create_token_pair env user.user_id).2,
    user', db', hok, hid⟩

/-- Witness for amended C10: the blocked and unconfirmed
`blocked_fresh_user` logs in successfully with its correct password. -/
theorem C10_authenticate_ignores_account_flags_witness :
    blocked_fresh_user.is_blocked = true
    ∧ blocked_fresh_user.is_confirmed = false
    ∧ ∃ access_token refresh_token user' db',
        authenticate envW blocked_fresh_db blocked_fresh_creds
          = .ok ((access_token, refresh_token, user'), db')
        ∧ user'.user_id = blocked_fresh_user.user_id :=
  ⟨rfl, rfl, C10_authenticate_ignores_account_flags envW blocked_fresh_db blocked_fresh_creds
    blocked_fresh_user { raw := "fresh pw", outdated := false } (by decide) rfl rfl (Or.inl rfl)⟩

/-! Resolver lemmas: caching behaviour of the four lazy stages. -/

/-- A cached token stage is returned as-is: no factory call, no state
change. -/
theorem read_token_hit (env : ReqEnv) (s : ResolverState) (v : Option String)
    (h : s.token = some v) : read_token env s = (v, s) := by
  simp [read_token, h]

/-- A cached payload stage is returned as-is. -/
theorem read_payload_hit (env : ReqEnv) (s : ResolverState) (p : TokenPayload)
    (h : s.payload = some p) : read_payload env s = (.ok p, s) := by
  simp [read_payload, h]

/-- A cached user-id stage is returned as-is. -/
theorem read_user_id_hit (env : ReqEnv) (s : ResolverState) (n : Nat)
    (h : s.user_id = some n) : read_user_id env s = (.ok n, s) := by
  simp [read_user_id, h]

/-- A cached user stage is returned as-is. -/
theorem read_user_hit (env : ReqEnv) (s : ResolverState) (u : User)
    (h : s.user = some u) : read_user env s = (.ok u, s) := by
  simp [read_user, h]

/-- Reading the token stage leaves its value cached. -/
theorem read_token_caches (env : ReqEnv) (s : ResolverState) :
    (read_token env s).2.token = some (read_token env s).1 := by
  cases hs : s.token <;> simp [read_token, hs]

/-- Reading the token stage does not touch the other slots or counters. -/
theorem read_token_frame (env : ReqEnv) (s : ResolverState) :
    (read_token env s).2.payload = s.payload
    ∧ (read_token env s).2.user_id = s.user_id
    ∧ (read_token env s).2.user = s.user
    ∧ (read_token env s).2.decode_count = s.decode_count
    ∧ (read_token env s).2.lookup_count = s.lookup_count := by
  cases hs : s.token <;> simp [read_token, hs]

/-- A successful payload read leaves the payload cached. -/
theorem read_payload_ok_caches (env : ReqEnv) (s : ResolverState) (p : TokenPayload)
    (s' : ResolverState) (h : read_payload env s = (.ok p, s')) : s'.payload = some p := by
  cases hs : s.payload with
  | some q =>
    rw [read_payload_hit env s q hs] at h
    obtain ⟨h1, rfl⟩ : Except.ok q = Except.ok p ∧ s = s' := ⟨congrArg Prod.fst h, congrArg Prod.snd h⟩
    obtain rfl : q = p := by injection h1
    exact hs
  | none =>
    unfold read_payload at h
    rw [hs] at h
    rcases hd : env.decode (read_token env s).1 with e | q <;> simp [hd] at h
    obtain ⟨rfl, rfl⟩ := h
    simp

/-- A payload read (hit or miss) does not touch later slots, and a failed
one caches nothing. -/
theorem read_payload_frame (env : ReqEnv) (s : ResolverState) :
    (read_payload env s).2.user_id = s.user_id
    ∧ (read_payload env s).2.user = s.user
    ∧ (read_payload env s).2.lookup_count = s.lookup_count := by
  cases hs : s.payload with
  | some q => simp [read_payload_hit env s q hs]
  | none =>
    unfold read_payload
    rw [hs]
    rcases hd : env.decode (read_token env s).1 with e | q <;>
      simp [hd, (read_token_frame env s).2.1, (read_token_frame env s).2.2.1,
        (read_token_frame env s).2.2.2.2]

/-- Reading the token stage returns `token_value` and caches it. -/
theorem read_token_eq (env : ReqEnv) (s : ResolverState) :
    read_token env s = (token_value env s, { s with token := some (token_value env s) }) := by
  cases s with
  | mk t p n u dc lc => cases t <;> simp [read_token, token_value]

/-- The decode-marked state still holds the same token value. -/
theorem token_value_mark_decode (env : ReqEnv) (s : ResolverState) :
    token_value env (mark_decode env s) = token_value env s := by
  simp [token_value, mark_decode]

/-- Equation for a payload-stage miss: decode the token value once; cache
the payload only on success. -/
theorem read_payload_miss (env : ReqEnv) (s : ResolverState) (hs : s.payload = none) :
    read_payload env s
      = match env.decode (token_value env s) with
        | .error e => (.error e, mark_decode env s)
        | .ok p => (.ok p, { mark_decode env s with payload := some p }) := by
  cases hd : env.decode (token_value env s) <;>
    simp [read_payload, hs, read_token_eq, mark_decode, hd]

/-- A failed payload read leaves the payload slot empty but the token slot
filled, so repeating it decodes the same token again and fails with the
identical error. -/
theorem read_payload_err_rep (env : ReqEnv) (s : ResolverState) (e : AppError)
    (s' : ResolverState) (h : read_payload env s = (.error e, s')) :
    (read_payload env s').1 = .error e := by
  cases hs : s.payload with
  | some q => rw [read_payload_hit env s q hs] at h; exact absurd (congrArg Prod.fst h) (by simp)
  | none =>
    rw [read_payload_miss env s hs] at h
    cases hd : env.decode (token_value env s) with
    | ok p => rw [hd] at h; exact absurd (congrArg Prod.fst h) (by simp)
    | error e1 =>
      rw [hd] at h
      have h1 : Except.error (α := TokenPayload) e1 = .error e := congrArg Prod.fst h
      have h2 : mark_decode env s = s' := congrArg Prod.snd h
      rw [← h2, read_payload_miss env (mark_decode env s) hs, token_value_mark_decode, hd]
      exact h1

/-- A successful payload read is cached: repeating it returns the same
value without recomputation or state change. -/
theorem read_payload_ok_rep (env : ReqEnv) (s : ResolverState) (p : TokenPayload)
    (s' : ResolverState) (h : read_payload env s = (.ok p, s')) :
    read_payload env s' = (.ok p, s') :=
  read_payload_hit env s' p (read_payload_ok_caches env s p s' h)

/-- A successful user-id read leaves the id cached. -/
theorem read_user_id_ok_caches (env : ReqEnv) (s : ResolverState) (n : Nat)
    (s' : ResolverState) (h : read_user_id env s = (.ok n, s')) : s'.user_id = some n := by
  cases hs : s.user_id with
  | some m =>
    rw [read_user_id_hit env s m hs] at h
    obtain ⟨h1, rfl⟩ : Except.ok m = Except.ok n ∧ s = s' := ⟨congrArg Prod.fst h, congrArg Prod.snd h⟩
    obtain rfl : m = n := by injection h1
    exact hs
  | none =>
    unfold read_user_id at h
    rw [hs] at h
    rcases hp : read_payload env s with ⟨r, s1⟩
    rcases r with e | q
    · simp [hp] at h
    · simp [hp] at h
      rcases hu : env.parse_uuid q with e | m <;> simp [hu] at h
      obtain ⟨rfl, rfl⟩ := h
      simp

/-- A user-id read does not touch the user slot or the lookup counter. -/
theorem read_user_id_frame (env : ReqEnv) (s : ResolverState) :
    (read_user_id env s).2.user = s.user
    ∧ (read_user_id env s).2.lookup_count = s.lookup_count := by
  cases hs : s.user_id with
  | some m => simp [read_user_id_hit env s m hs]
  | none =>
    unfold read_user_id
    rw [hs]
    rcases hp : read_payload env s with ⟨r, s1⟩
    have hf := read_payload_frame env s
    rw [hp] at hf
    rcases r with e | q
    · simpa using ⟨hf.2.1, hf.2.2⟩
    · rcases hu : env.parse_uuid q with e | m <;> simp [hu] <;>
        exact ⟨hf.2.1, hf.2.2⟩

/-- Equation for a user-id-stage miss. -/
theorem read_user_id_miss (env : ReqEnv) (s : ResolverState) (hs : s.user_id = none) :
    read_user_id env s
      = match read_payload env s with
        | (.error e, s1) => (.error e, s1)
        | (.ok p, s1) =>
          match env.parse_uuid p with
          | .error e => (.error e, s1)
          | .ok n => (.ok n, { s1 with user_id := some n }) := by
  rcases hp : read_payload env s with ⟨r, s1⟩
  rcases r with e | p
  · simp [read_user_id, hs, hp]
  · cases hu : env.parse_uuid p <;> simp [read_user_id, hs, hp, hu]

/-- A failed user-id read fails identically when repeated. -/
theorem read_user_id_err_rep (env : ReqEnv) (s : ResolverState) (e : AppError)
    (s' : ResolverState) (h : read_user_id env s = (.error e, s')) :
    (read_user_id env s').1 = .error e := by
  cases hs : s.user_id with
  | some m => rw [read_user_id_hit env s m hs] at h; exact absurd (congrArg Prod.fst h) (by simp)
  | none =>
    rw [read_user_id_miss env s hs] at h
    have hf := read_payload_frame env s
    rcases hp : read_payload env s with ⟨r, s1⟩
    rw [hp] at h hf
    simp only at hf
    rcases r with e1 | q
    · simp only at h
      have he : e1 = e := by injection congrArg Prod.fst h
      have hst : s1 = s' := congrArg Prod.snd h
      have huid : s'.user_id = none := by rw [← hst]; exact hf.1.trans hs
      rw [read_user_id_miss env s' huid]
      have hperr : (read_payload env s').1 = .error e1 :=
        read_payload_err_rep env s e1 s' (by rw [hp, hst])
      rcases hp2 : read_payload env s' with ⟨r2, s2⟩
      rw [hp2] at hperr
      simp only at hperr
      rw [hperr]
      simp only
      rw [he]
    · simp only at h
      rcases hu : env.parse_uuid q with e1 | m <;> rw [hu] at h <;> simp only at h
      · have he : e1 = e := by injection congrArg Prod.fst h
        have hst : s1 = s' := congrArg Prod.snd h
        have huid : s'.user_id = none := by rw [← hst]; exact hf.1.trans hs
        rw [read_user_id_miss env s' huid]
        have hp2 : read_payload env s' = (.ok q, s') :=
          read_payload_ok_rep env s q s' (by rw [hp, hst])
        rw [hp2]
        simp only
        rw [hu]
        simp only
        rw [he]
      · exact absurd (congrArg Prod.fst h) (by simp)

/-- A successful user-id read is cached: repeating it is the identity. -/
theorem read_user_id_ok_rep (env : ReqEnv) (s : ResolverState) (n : Nat)
    (s' : ResolverState) (h : read_user_id env s = (.ok n, s')) :
    read_user_id env s' = (.ok n, s') :=
  read_user_id_hit env s' n (read_user_id_ok_caches env s n s' h)

/-- A successful user read leaves the user cached. -/
theorem read_user_ok_caches (env : ReqEnv) (s : ResolverState) (u : User)
    (s' : ResolverState) (h : read_user env s = (.ok u, s')) : s'.user = some u := by
  cases hs : s.user with
  | some w =>
    rw [read_user_hit env s w hs] at h
    obtain ⟨h1, rfl⟩ : Except.ok w = Except.ok u ∧ s = s' := ⟨congrArg Prod.fst h, congrArg Prod.snd h⟩
    obtain rfl : w = u := by injection h1
    exact hs
  | none =>
    unfold read_user at h
    rw [hs] at h
    rcases hn : read_user_id env s with ⟨r, s1⟩
    rcases r with e | m
    · simp [hn] at h
    · simp [hn] at h
      rcases hl : env.lookup m with _ | w <;> simp [hl] at h
      obtain ⟨rfl, rfl⟩ := h
      simp

/-- Equation for a user-stage miss. -/
theorem read_user_miss (env : ReqEnv) (s : ResolverState) (hs : s.user = none) :
    read_user env s
      = match read_user_id env s with
        | (.error e, s1) => (.error e, s1)
        | (.ok n, s1) =>
          match env.lookup n with
          | none => (.error (.authCredentialsInvalid none),
              { s1 with lookup_count := s1.lookup_count + 1 })
          | some u => (.ok u,
              { s1 with lookup_count := s1.lookup_count + 1, user := some u }) := by
  rcases hn : read_user_id env s with ⟨r, s1⟩
  rcases r with e | m
  · simp [read_user, hs, hn]
  · cases hl : env.lookup m <;> simp [read_user, hs, hn, hl]

/-- A failed user read fails identically when repeated. -/
theorem read_user_err_rep (env : ReqEnv) (s : ResolverState) (e : AppError)
    (s' : ResolverState) (h : read_user env s = (.error e, s')) :
    (read_user env s').1 = .error e := by
  cases hs : s.user with
  | some w => rw [read_user_hit env s w hs] at h; exact absurd (congrArg Prod.fst h) (by simp)
  | none =>
    rw [read_user_miss env s hs] at h
    have hf := read_user_id_frame env s
    rcases hn : read_user_id env s with ⟨r, s1⟩
    rw [hn] at h hf
    simp only at hf
    rcases r with e1 | m
    · simp only at h
      have he : e1 = e := by injection congrArg Prod.fst h
      have hst : s1 = s' := congrArg Prod.snd h
      have husr : s'.user = none := by rw [← hst]; exact hf.1.trans hs
      rw [read_user_miss env s' husr]
      have hnerr : (read_user_id env s').1 = .error e1 :=
        read_user_id_err_rep env s e1 s' (by rw [hn, hst])
      rcases hn2 : read_user_id env s' with ⟨r2, s2⟩
      rw [hn2] at hnerr
      simp only at hnerr
      rw [hnerr]
      simp only
      rw [he]
    · simp only at h
      rcases hl : env.lookup m with _ | w <;> rw [hl] at h <;> simp only at h
      · have he : AppError.authCredentialsInvalid none = e := by injection congrArg Prod.fst h
        have hst : { s1 with lookup_count := s1.lookup_count + 1 } = s' := congrArg Prod.snd h
        have husr : s'.user = none := by
          rw [← hst]
          show s1.user = none
          exact hf.1.trans hs
        rw [read_user_miss env s' husr]
        have huid : s'.user_id = some m := by
          rw [← hst]
          show s1.user_id = some m
          exact read_user_id_ok_caches env s m s1 hn
        rw [read_user_id_hit env s' m huid]
        simp only
        rw [hl]
        simp only
        rw [he]
      · exact absurd (congrArg Prod.fst h) (by simp)

/-- A successful user read is cached: repeating it is the identity. -/
theorem read_user_ok_rep (env : ReqEnv) (s : ResolverState) (u : User)
    (s' : ResolverState) (h : read_user env s = (.ok u, s')) :
    read_user env s' = (.ok u, s') :=
  read_user_hit env s' u (read_user_ok_caches env s u s' h)

/-! Resolver lemmas: the at-most-once bounds on a well-behaved request. -/

/-- A fresh request satisfies the resolver invariant. -/
theorem resolver_inv_init (env : ReqEnv) (p : TokenPayload) (n : Nat) (u : User) :
    ResolverInv env p n u ResolverState.init := by
  simp [ResolverInv, ResolverState.init]

/-- Under the invariant the token value a decode would see is the header. -/
theorem token_value_of_inv (env : ReqEnv) (s : ResolverState)
    (h : s.token = none ∨ s.token = some env.header) :
    token_value env s = env.header := by
  rcases h with h | h <;> simp [token_value, h]

/-- Reading stage 1 preserves the invariant. -/
theorem resolver_inv_read_token (env : ReqEnv) (p : TokenPayload) (n : Nat) (u : User)
    (s : ResolverState) (h : ResolverInv env p n u s) :
    ResolverInv env p n u (read_token env s).2 := by
  obtain ⟨h1, h2, h3, h4, h5, h6⟩ := h
  cases hs : s.token with
  | some v => rw [read_token_hit env s v hs]; exact ⟨h1, h2, h3, h4, h5, h6⟩
  | none =>
    rw [read_token_eq]
    have htv : token_value env s = env.header := by simp [token_value, hs]
    exact ⟨Or.inr (by rw [htv]), h2, h3, h4, h5, h6⟩

/-- On a well-behaved environment, reading stage 2 under the invariant
yields the canonical payload. -/
theorem read_payload_value (env : ReqEnv) (p : TokenPayload) (n : Nat) (u : User)
    (s : ResolverState) (hd : env.decode env.header = .ok p)
    (h : ResolverInv env p n u s) : (read_payload env s).1 = .ok p := by
  obtain ⟨h1, h2, h3, h4, h5, h6⟩ := h
  cases hp : s.payload with
  | some q =>
    have hq : q = p := by
      rcases h2 with h2 | h2
      · rw [hp] at h2; cases h2
      · rw [hp] at h2; injection h2
    rw [read_payload_hit env s q hp, hq]
  | none =>
    rw [read_payload_miss env s hp, token_value_of_inv env s h1, hd]

/-- Reading stage 2 preserves the invariant on a well-behaved
environment. -/
theorem resolver_inv_read_payload (env : ReqEnv) (p : TokenPayload) (n : Nat) (u : User)
    (s : ResolverState) (hd : env.decode env.header = .ok p)
    (h : ResolverInv env p n u s) :
    ResolverInv env p n u (read_payload env s).2 := by
  obtain ⟨h1, h2, h3, h4, h5, h6⟩ := h
  cases hp : s.payload with
  | some q => rw [read_payload_hit env s q hp]; exact ⟨h1, h2, h3, h4, h5, h6⟩
  | none =>
    rw [read_payload_miss env s hp, token_value_of_inv env s h1, hd]
    have hdc : s.decode_count = 0 := by rw [h5, if_pos hp]
    refine ⟨Or.inr ?_, Or.inr rfl, h3, h4, ?_, h6⟩
    · show some (token_value env s) = some env.header
      rw [token_value_of_inv env s h1]
    · show s.decode_count + 1 = if (some p : Option TokenPayload) = none then 0 else 1
      rw [hdc]; simp

/-- On a well-behaved environment, reading stage 3 under the invariant
yields the canonical user id. -/
theorem read_user_id_value (env : ReqEnv) (p : TokenPayload) (n : Nat) (u : User)
    (s : ResolverState) (hd : env.decode env.header = .ok p)
    (hparse : env.parse_uuid p = .ok n)
    (h : ResolverInv env p n u s) : (read_user_id env s).1 = .ok n := by
  cases hn : s.user_id with
  | some m =>
    have hm : m = n := by
      rcases h.2.2.1 with h3 | h3
      · rw [hn] at h3; cases h3
      · rw [hn] at h3; injection h3
    rw [read_user_id_hit env s m hn, hm]
  | none =>
    rw [read_user_id_miss env s hn]
    have hv := read_payload_value env p n u s hd h
    rcases hpl : read_payload env s with ⟨r, s1⟩
    rw [hpl] at hv
    simp only at hv
    rw [hv]
    simp only
    rw [hparse]

/-- Reading stage 3 preserves the invariant on a well-behaved
environment. -/
theorem resolver_inv_read_user_id (env : ReqEnv) (p : TokenPayload) (n : Nat) (u : User)
    (s : ResolverState) (hd : env.decode env.header = .ok p)
    (hparse : env.parse_uuid p = .ok n)
    (h : ResolverInv env p n u s) :
    ResolverInv env p n u (read_user_id env s).2 := by
  cases hn : s.user_id with
  | some m => rw [read_user_id_hit env s m hn]; exact h
  | none =>
    rw [read_user_id_miss env s hn]
    have hv := read_payload_value env p n u s hd h
    have h1 := resolver_inv_read_payload env p n u s hd h
    rcases hpl : read_payload env s with ⟨r, s1⟩
    rw [hpl] at hv h1
    simp only at hv h1
    rw [hv]
    simp only
    rw [hparse]
    simp only
    obtain ⟨g1, g2, g3, g4, g5, g6⟩ := h1
    exact ⟨g1, g2, Or.inr rfl, g4, g5, g6⟩

/-- Reading stage 4 preserves the invariant on a well-behaved
environment. -/
theorem resolver_inv_read_user (env : ReqEnv) (p : TokenPayload) (n : Nat) (u : User)
    (s : ResolverState) (hd : env.decode env.header = .ok p)
    (hparse : env.parse_uuid p = .ok n) (hlook : env.lookup n = some u)
    (h : ResolverInv env p n u s) :
    ResolverInv env p n u (read_user env s).2 := by
  cases hu : s.user with
  | some w => rw [read_user_hit env s w hu]; exact h
  | none =>
    rw [read_user_miss env s hu]
    have hv := read_user_id_value env p n u s hd hparse h
    have h1 := resolver_inv_read_user_id env p n u s hd hparse h
    have hfr := read_user_id_frame env s
    rcases hn : read_user_id env s with ⟨r, s1⟩
    rw [hn] at hv h1 hfr
    simp only at hv h1 hfr
    rw [hv]
    simp only
    rw [hlook]
    simp only
    obtain ⟨g1, g2, g3, g4, g5, g6⟩ := h1
    have hs1u : s1.user = none := hfr.1.trans hu
    refine ⟨g1, g2, g3, Or.inr rfl, g5, ?_⟩
    show s1.lookup_count + 1 = if (some u : Option User) = none then 0 else 1
    rw [g6, if_pos hs1u]
    simp

/-- Any read access preserves the invariant on a well-behaved
environment. -/
theorem resolver_inv_run_op (env : ReqEnv) (p : TokenPayload) (n : Nat) (u : User)
    (s : ResolverState) (hd : env.decode env.header = .ok p)
    (hparse : env.parse_uuid p = .ok n) (hlook : env.lookup n = some u)
    (op : ResolverOp) (hop : op.is_read = true)
    (h : ResolverInv env p n u s) :
    ResolverInv env p n u (run_op env s op) := by
  cases op with
  | read_tok => exact resolver_inv_read_token env p n u s h
  | read_pl => exact resolver_inv_read_payload env p n u s hd h
  | read_uid => exact resolver_inv_read_user_id env p n u s hd hparse h
  | read_usr => exact resolver_inv_read_user env p n u s hd hparse hlook h
  | set_tok v => simp [ResolverOp.is_read] at hop
  | set_pl q => simp [ResolverOp.is_read] at hop
  | set_uid m => simp [ResolverOp.is_read] at hop
  | set_usr w => simp [ResolverOp.is_read] at hop

/-- Any sequence of read accesses preserves the invariant on a
well-behaved environment. -/
theorem resolver_inv_run_ops (env : ReqEnv) (p : TokenPayload) (n : Nat) (u : User)
    (hd : env.decode env.header = .ok p) (hparse : env.parse_uuid p = .ok n)
    (hlook : env.lookup n = some u) :
    ∀ (ops : List ResolverOp) (s : ResolverState),
      (∀ op ∈ ops, op.is_read = true) → ResolverInv env p n u s →
      ResolverInv env p n u (run_ops env ops s)
  | [], _, _, h => h
  | op :: ops, s, hops, h =>
    resolver_inv_run_ops env p n u hd hparse hlook ops (run_op env s op)
      (fun o ho => hops o (List.mem_cons_of_mem op ho))
      (resolver_inv_run_op env p n u s hd hparse hlook op
        (hops op (List.mem_cons_self op ops)) h)

/-- The invariant bounds both counters by one. -/
theorem resolver_inv_counts (env : ReqEnv) (p : TokenPayload) (n : Nat) (u : User)
    (s : ResolverState) (h : ResolverInv env p n u s) :
    s.decode_count ≤ 1 ∧ s.lookup_count ≤ 1 := by
  obtain ⟨_, _, _, _, h5, h6⟩ := h
  constructor
  · rw [h5]; split <;> simp
  · rw [h6]; split <;> simp

/-- An access that is not a read of stage 2 or later never decodes a token
or queries the user table. -/
theorem run_op_no_verification (env : ReqEnv) (s : ResolverState) (op : ResolverOp)
    (h : op.touches_verification = false) :
    (run_op env s op).decode_count = s.decode_count
    ∧ (run_op env s op).lookup_count = s.lookup_count := by
  cases op with
  | read_tok => exact ⟨(read_token_frame env s).2.2.2.1, (read_token_frame env s).2.2.2.2⟩
  | read_pl => simp [ResolverOp.touches_verification] at h
  | read_uid => simp [ResolverOp.touches_verification] at h
  | read_usr => simp [ResolverOp.touches_verification] at h
  | set_tok v => exact ⟨rfl, rfl⟩
  | set_pl q => exact ⟨rfl, rfl⟩
  | set_uid m => exact ⟨rfl, rfl⟩
  | set_usr w => exact ⟨rfl, rfl⟩

/-- A request whose accesses never read stage 2 or later performs no token
decode and no user lookup. -/
theorem run_ops_no_verification (env : ReqEnv) :
    ∀ (ops : List ResolverOp) (s : ResolverState),
      (∀ op ∈ ops, op.touches_verification = false) →
      (run_ops env ops s).decode_count = s.decode_count
      ∧ (run_ops env ops s).lookup_count = s.lookup_count
  | [], s, _ => ⟨rfl, rfl⟩
  | op :: ops, s, hops => by
    have h1 := run_op_no_verification env s op (hops op (List.mem_cons_self op ops))
    have h2 := run_ops_no_verification env ops (run_op env s op)
      (fun o ho => hops o (List.mem_cons_of_mem op ho))
    exact ⟨h2.1.trans h1.1, h2.2.trans h1.2⟩

/-- Counterexample to claim C6: on a request whose inbound token does not
decode, two payload-stage reads by two call sites perform two token
decodes — a factory that raises caches nothing (the descriptor assignment
never executes), so "each stage computed at most once / at most one token
decode per request" fails on error paths. -/
theorem C6_counterexample_failed_stage_recomputed :
    (∀ op ∈ [ResolverOp.read_pl, ResolverOp.read_pl], ResolverOp.is_read op = true)
    ∧ (run_ops envBad [ResolverOp.read_pl, ResolverOp.read_pl]
        ResolverState.init).decode_count = 2 := by
  refine ⟨?_, rfl⟩
  intro op hop
  fin_cases hop <;> rfl

/-- Claim C6 as amended: each of the four identity-resolution stages is
cached upon successful computation: reading a cached stage returns the
cached value with no factory call and no state change; a successful read
caches its result so immediately repeated reads are the identity;
explicitly setting a stage stores the given value and subsequent reads of
that stage return it without invoking the factory; on a request where
every stage computation succeeds, any number of read accesses performs at
most one token decode and at most one user-table lookup; and a request
that never reads stage 2 or later performs no decode and no lookup. A
stage whose factory raises is, however, not cached: each repeated read
recomputes it (see the counterexample) and raises the identical error. -/
theorem C6_lazy_stages_memoized :
    (∀ (env : ReqEnv) (s : ResolverState) (v : Option String),
      s.token = some v → read_token env s = (v, s))
    ∧ (∀ (env : ReqEnv) (s : ResolverState) (p : TokenPayload),
      s.payload = some p → read_payload env s = (.ok p, s))
    ∧ (∀ (env : ReqEnv) (s : ResolverState) (n : Nat),
      s.user_id = some n → read_user_id env s = (.ok n, s))
    ∧ (∀ (env : ReqEnv) (s : ResolverState) (u : User),
      s.user = some u → read_user env s = (.ok u, s))
    ∧ (∀ (env : ReqEnv) (s : ResolverState) (p : TokenPayload) (s' : ResolverState),
      read_payload env s = (.ok p, s') → read_payload env s' = (.ok p, s'))
    ∧ (∀ (env : ReqEnv) (s : ResolverState) (n : Nat) (s' : ResolverState),
      read_user_id env s = (.ok n, s') → read_user_id env s' = (.ok n, s'))
    ∧ (∀ (env : ReqEnv) (s : ResolverState) (u : User) (s' : ResolverState),
      read_user env s = (.ok u, s') → read_user env s' = (.ok u, s'))
    ∧ (∀ (env : ReqEnv) (s : ResolverState) (e : AppError) (s' : ResolverState),
      read_payload env s = (.error e, s') → (read_payload env s').1 = .error e)
    ∧ (∀ (env : ReqEnv) (s : ResolverState) (e : AppError) (s' : ResolverState),
      read_user_id env s = (.error e, s') → (read_user_id env s').1 = .error e)
    ∧ (∀ (env : ReqEnv) (s : ResolverState) (e : AppError) (s' : ResolverState),
      read_user env s = (.error e, s') → (read_user env s').1 = .error e)
    ∧ (∀ (env : ReqEnv) (v : Option String) (s : ResolverState),
      read_token env (set_token v s) = (v, set_token v s))
    ∧ (∀ (env : ReqEnv) (p : TokenPayload) (s : ResolverState),
      read_payload env (set_payload p s) = (.ok p, set_payload p s))
    ∧ (∀ (env : ReqEnv) (n : Nat) (s : ResolverState),
      read_user_id env (set_user_id n s) = (.ok n, set_user_id n s))
    ∧ (∀ (env : ReqEnv) (u : User) (s : ResolverState),
      read_user env (set_user u s) = (.ok u, set_user u s))
    ∧ (∀ (env : ReqEnv) (ops : List ResolverOp), GoodEnv env →
      (∀ op ∈ ops, ResolverOp.is_read op = true) →
      (run_ops env ops ResolverState.init).decode_count ≤ 1
      ∧ (run_ops env ops ResolverState.init).lookup_count ≤ 1)
    ∧ (∀ (env : ReqEnv) (ops : List ResolverOp) (s : ResolverState),
      (∀ op ∈ ops, ResolverOp.touches_verification op = false) →
      (run_ops env ops s).decode_count = s.decode_count
      ∧ (run_ops env ops s).lookup_count = s.lookup_count) := by
  refine ⟨read_token_hit, read_payload_hit, read_user_id_hit, read_user_hit,
    read_payload_ok_rep, read_user_id_ok_rep, read_user_ok_rep,
    read_payload_err_rep, read_user_id_err_rep, read_user_err_rep,
    ?_, ?_, ?_, ?_, ?_, run_ops_no_verification⟩
  · exact fun env v s => read_token_hit env _ v rfl
  · exact fun env p s => read_payload_hit env _ p rfl
  · exact fun env n s => read_user_id_hit env _ n rfl
  · exact fun env u s => read_user_hit env _ u rfl
  · intro env ops hgood hops
    obtain ⟨p, n, u, hd, hparse, hlook⟩ := hgood
    exact resolver_inv_counts env p n u _
      (resolver_inv_run_ops env p n u hd hparse hlook ops ResolverState.init hops
        (resolver_inv_init env p n u))

/-- Witness for amended C6: three call-site reads (user, payload, user
again) on a well-behaved request decode at most once and look the user up
at most once. -/
theorem C6_lazy_stages_memoized_witness :
    GoodEnv envGood
    ∧ (∀ op ∈ opsW, ResolverOp.is_read op = true)
    ∧ (run_ops envGood opsW ResolverState.init).decode_count ≤ 1
    ∧ (run_ops envGood opsW ResolverState.init).lookup_count ≤ 1 := by
  have hgood : GoodEnv envGood := ⟨payloadW, 7, rehash_user, rfl, rfl, rfl⟩
  have hops : ∀ op ∈ opsW, ResolverOp.is_read op = true := by
    intro op hop
    fin_cases hop <;> rfl
  obtain ⟨-, -, -, -, -, -, -, -, -, -, -, -, -, -, h15, -⟩ := C6_lazy_stages_memoized
  exact ⟨hgood, hops, (h15 envGood opsW hgood hops).1, (h15 envGood opsW hgood hops).2⟩

end SoftwareTester
